import Mathlib

/-
  Shallow embedding of src/load_data.py (class LoadData) from the
  nccs-public repository, together with proofs about the embedded
  operations.

  Modelling conventions:
  - Python machine values appearing in the data path are either ints or
    strings; they are embedded as the inductive type PyVal.
  - A pandas cell is PyVal or NaN; NaN is embedded as Option.none.
    pandas read_csv with default NA filtering parses an empty field as
    NaN, never as the empty string, and dtype=str does not change NA
    cells; the parsing functions below reflect that.
  - Fallible Python code returns Except PyError; each PyError
    constructor names the Python exception it stands for.
  - The filesystem is explicit state: a list of existing paths plus
    content maps (association lists) that give the parsed content of
    the bytes at a path.  Writing a file adds its path to the list.
  - Log output (logger.info calls) is returned as a list of LogEvent
    values so that warning-vs-fatal behavior is observable.
-/

namespace NCCS

/-! Python string primitives, modelled over the character list of the
string so that every definition evaluates by kernel reduction. -/

/-- Python containment of a character in a string. -/
def strContains (s : String) (c : Char) : Bool := s.data.contains c

/-- Python str.upper on ASCII labels. -/
def strToUpper (s : String) : String := ⟨s.data.map Char.toUpper⟩

/-- Python str.endswith. -/
def strEndsWith (s suffix : String) : Bool := suffix.data.isSuffixOf s.data

/-- Python str.split with a one-character separator, on the character
list: split at every occurrence, so n separators yield n+1 parts. -/
def splitOnChar (c : Char) : List Char → List (List Char)
  | [] => [[]]
  | x :: xs =>
    match splitOnChar c xs with
    | [] => [[x]]
    | y :: ys => if x = c then [] :: y :: ys else (x :: y) :: ys

/-- Python str.split with a one-character separator, on strings. -/
def strSplitOnChar (c : Char) (s : String) : List String :=
  (splitOnChar c s.data).map (fun cs => ⟨cs⟩)

/-- Containment of one character list at the head of another. -/
def startsWithChars : List Char → List Char → Bool
  | [], _ => true
  | _ :: _, [] => false
  | p :: ps, x :: xs => p = x && startsWithChars ps xs

/-- Containment of one character list anywhere in another. -/
def hasSubChars (pat : List Char) : List Char → Bool
  | [] => pat.isEmpty
  | x :: xs => startsWithChars pat (x :: xs) || hasSubChars pat xs

/-- Python substring containment pat in s. -/
def pyIn (pat s : String) : Bool := hasSubChars pat.data s.data

/-- Digits-only reading of a character list as a natural number. -/
def charsToNat? (cs : List Char) : Option Nat :=
  if cs.isEmpty then none
  else if cs.all (fun c => c.isDigit) then
    some (cs.foldl (fun a c => 10 * a + (c.toNat - 48)) 0)
  else none

/-- Python int() on a string: an optional sign followed by digits. -/
def strToInt? (s : String) : Option Int :=
  match s.data with
  | '-' :: rest => (charsToNat? rest).map (fun n => -(n : Int))
  | '+' :: rest => (charsToNat? rest).map (fun n => (n : Int))
  | _ => (charsToNat? s.data).map (fun n => (n : Int))

/-- Python exceptions that the embedded code can raise.  Each
constructor corresponds to one concrete exception site in
src/load_data.py. -/
inductive PyError where
  | typeError (leftTy rightTy : String)
  | valueError (msg : String)
  | keyError
  | assertionError (msg : String)
  | unboundLocal (name : String)
  | fileNotFound (path : String)
  | invalidUrl (url : String)
  | connectionError
  | badZipFile
  | noConnection (fname : String)
  | castError
  deriving DecidableEq, Repr

/-- Python values flowing through the data path: ints and strings. -/
inductive PyVal where
  | int (n : Int)
  | str (s : String)
  deriving DecidableEq, Repr

/-- Decidable equality of Except outcomes, so that concrete runs of
the embedded functions can be checked by evaluation. -/
instance {e a : Type} [DecidableEq e] [DecidableEq a] : DecidableEq (Except e a) := fun x y =>
  match x, y with
  | .ok v, .ok w =>
    if h : v = w then .isTrue (h ▸ rfl) else .isFalse (fun hc => h (Except.ok.inj hc))
  | .error v, .error w =>
    if h : v = w then .isTrue (h ▸ rfl) else .isFalse (fun hc => h (Except.error.inj hc))
  | .ok _, .error _ => .isFalse (fun hc => Except.noConfusion hc)
  | .error _, .ok _ => .isFalse (fun hc => Except.noConfusion hc)

/-- Name of the Python type of a value, as it appears in a TypeError
message. -/
def PyVal.typeName : PyVal → String
  | .int _ => "int"
  | .str _ => "str"

/-- Python str() of a value (used by astype(str) style coercions). -/
def PyVal.toStr : PyVal → String
  | .int n => toString n
  | .str s => s

/-- Python comparison a > b.  Comparing an int with a str raises
TypeError naming the two operand types, left operand first. -/
def pyGT : PyVal → PyVal → Except PyError Bool
  | .int a, .int b => .ok (decide (b < a))
  | .str a, .str b => .ok (decide (compare a b = Ordering.gt))
  | a, b => .error (.typeError a.typeName b.typeName)

/-- Loop of the Python builtin max over an iterable: keeps the current
maximum, replacing it whenever a later item compares greater. -/
def pymaxLoop : PyVal → List PyVal → Except PyError PyVal
  | m, [] => .ok m
  | m, x :: xs =>
    match pyGT x m with
    | .error e => .error e
    | .ok true => pymaxLoop x xs
    | .ok false => pymaxLoop m xs

/-- Python builtin max over a list.  An empty argument raises
ValueError; heterogeneous elements raise TypeError from the comparison. -/
def pymax : List PyVal → Except PyError PyVal
  | [] => .error (.valueError "max() arg is an empty sequence")
  | x :: xs => pymaxLoop x xs

/-- LoadData.ismixed (src/load_data.py lines 522-534): tries max over
the column values; a TypeError means mixed (after asserting the two
reported operand types differ), a ValueError for the empty sequence
means uniform, success means uniform. -/
def ismixed (a : List PyVal) : Except PyError Bool :=
  match pymax a with
  | .ok _ => .ok false
  | .error (.typeError fst snd) =>
      if fst = snd then .error (.assertionError "ismixed type names")
      else .ok true
  | .error (.valueError msg) =>
      if msg = "max() arg is an empty sequence" then .ok false
      else .error (.assertionError "ismixed value message")
  | .error e => .error e

/-- Loop from src/load_data.py lines 167-170 and 551-554: readline
until the line is not a bare newline (EOF yields the empty string).
The file is modelled as its list of readline results. -/
def firstNonBlankLine : List String → String
  | [] => ""
  | l :: ls => if l = "\n" then firstNonBlankLine ls else l

/-- Delimiter test from src/load_data.py lines 171-179 and 555-563:
pipe, then comma, then space, first containment match wins; no match
leaves the delimiter unset (none). -/
def sniffDelim (line : String) : Option Char :=
  if strContains line '|' then some '|'
  else if strContains line ',' then some ','
  else if strContains line ' ' then some ' '
  else none

/-- Log lines emitted through main.logger.info, reduced to the event
they narrate. -/
inductive LogEvent where
  | converting (path : String)
  | noDelim (firstLine : String)
  | unsupported (path : String)
  | mixedCol (col : String)
  | downloaded (fname : String)
  | usingExisting (fname : String)
  | multiEntry (fname : String)
  | extracted (name : String)
  deriving DecidableEq, Repr

/-- Filesystem state of the IRS download directory.  files lists the
existing paths; datData, xlsxData and zipEntries give the parsed
content of the bytes stored at a path (an absent entry models an
unreadable or missing file). -/
structure FS where
  files : List String
  datData : List (String × List String)
  xlsxData : List (String × List (String × List PyVal))
  zipEntries : List (String × List String)
  deriving DecidableEq, Repr

/-- Writing a file: ensure the path exists. -/
def FS.addFile (fs : FS) (p : String) : FS :=
  { fs with files := if p ∈ fs.files then fs.files else p :: fs.files }

/-- Extracting several files at once. -/
def FS.addFiles (fs : FS) : List String → FS
  | [] => fs
  | p :: ps => (fs.addFile p).addFiles ps

/-- Index of the last dot of a path that is not one of its leading
dots, mirroring os.path.splitext on a bare file name. -/
def lastExtDot (p : String) : Option Nat :=
  let cs := p.toList
  let lead := (cs.takeWhile (fun c => c = '.')).length
  (((List.range cs.length).filter
    (fun i => cs.getD i ' ' = '.' ∧ lead ≤ i)).getLast?)

/-- os.path.splitext on a bare file name: split before the last dot,
ignoring leading dots. -/
def splitext (p : String) : String × String :=
  match lastExtDot p with
  | some i => (⟨p.toList.take i⟩, ⟨p.toList.drop i⟩)
  | none => (p, "")

/-- Path of the canonical parquet artifact beside a raw artifact. -/
def parquetPath (p : String) : String := (splitext p).1 ++ ".parquet"

/-- Loop of LoadData.convert_to_parquet over the columns of a
spreadsheet (src/load_data.py lines 545-548): classify each column and
coerce mixed columns to str before writing. -/
def coerceMixed : List (String × List PyVal) →
    Except PyError (List (String × List PyVal) × List LogEvent)
  | [] => .ok ([], [])
  | (c, vs) :: rest =>
    match ismixed vs with
    | .error e => .error e
    | .ok b =>
      match coerceMixed rest with
      | .error e => .error e
      | .ok (rest2, logs) =>
        if b then
          .ok ((c, vs.map (fun v => PyVal.str v.toStr)) :: rest2,
               LogEvent.mixedCol c :: logs)
        else .ok ((c, vs) :: rest2, logs)

/-- Outcome of convert_to_parquet: the returned path or the raised
exception, the filesystem afterwards, and the emitted log events. -/
structure ConvOut where
  result : Except PyError String
  fs : FS
  logs : List LogEvent
  deriving DecidableEq, Repr

/-- LoadData.convert_to_parquet (src/load_data.py lines 536-570).  If
the parquet artifact already exists the function returns its path at
once.  Otherwise it dispatches on the extension: csv and xlsx convert
and write the parquet file; dat sniffs the delimiter from the first
non-blank line and converts, but when no delimiter is found the later
read that uses the variable delim raises UnboundLocalError because the
variable was never assigned; any other extension logs a warning and
returns the raw path unchanged. -/
def convert_to_parquet (fs : FS) (file_path : String) : ConvOut :=
  let fExt := (splitext file_path).2
  let pq := parquetPath file_path
  if pq ∈ fs.files then ⟨.ok pq, fs, []⟩
  else
    let logs0 := [LogEvent.converting file_path]
    if fExt = ".csv" then
      if file_path ∈ fs.files then ⟨.ok pq, fs.addFile pq, logs0⟩
      else ⟨.error (.fileNotFound file_path), fs, logs0⟩
    else if fExt = ".xlsx" then
      match List.lookup file_path fs.xlsxData with
      | none => ⟨.error (.fileNotFound file_path), fs, logs0⟩
      | some cols =>
        match coerceMixed cols with
        | .error e => ⟨.error e, fs, logs0⟩
        | .ok (_, logs1) => ⟨.ok pq, fs.addFile pq, logs0 ++ logs1⟩
    else if fExt = ".dat" then
      match List.lookup file_path fs.datData with
      | none => ⟨.error (.fileNotFound file_path), fs, logs0⟩
      | some lines =>
        match sniffDelim (firstNonBlankLine lines) with
        | some _ => ⟨.ok pq, fs.addFile pq, logs0⟩
        | none =>
          ⟨.error (.unboundLocal "delim"), fs,
           logs0 ++ [LogEvent.noDelim (firstNonBlankLine lines)]⟩
    else ⟨.ok file_path, fs, logs0 ++ [LogEvent.unsupported file_path]⟩

/-- HTTP response as seen through requests: the Content-Type header
and the body text. -/
structure Response where
  contentType : String
  text : String
  deriving DecidableEq, Repr

/-- The network: which URL answers with which response; an absent
entry models a connection failure. -/
structure Net where
  responses : List (String × Response)
  deriving DecidableEq, Repr

/-- Run configuration: the download directory and the global
force_new_download toggle from main. -/
structure Config where
  dlDir : String
  force_new_download : Bool
  deriving DecidableEq, Repr

/-- Invalid-URL heuristic of src/load_data.py line 480: the
Content-Type mentions text/html and the body mentions Page Not Found. -/
def isInvalidUrlResp (r : Response) : Bool :=
  pyIn "text/html" r.contentType && pyIn "Page Not Found" r.text

/-- Final path segment of a URL (url.split with slash, last element). -/
def urlFname (url : String) : String := (strSplitOnChar '/' url).getLastD ""

/-- os.path.join for a directory without a trailing separator. -/
def pathJoin (dir name : String) : String := dir ++ "/" ++ name

/-- Outcome of unzip_file: the value returned (None when the archive
has no entries), the filesystem afterwards, and the log events. -/
structure UnzipOut where
  result : Except PyError (Option String)
  fs : FS
  logs : List LogEvent
  deriving DecidableEq, Repr

/-- LoadData.unzip_file (src/load_data.py lines 501-520): extract all
entries, warn unless there is exactly one, then return from inside the
per-entry loop with the converted first entry; with zero entries the
loop body never runs and the function returns None. -/
def unzip_file (fs : FS) (fname output_file output_path : String) : UnzipOut :=
  match List.lookup output_file fs.zipEntries with
  | none => ⟨.error .badZipFile, fs, []⟩
  | some entries =>
    let fs1 := fs.addFiles (entries.map (pathJoin output_path))
    let warnLogs :=
      if entries.length ≠ 1 then [LogEvent.multiEntry fname] else []
    match entries with
    | [] => ⟨.ok none, fs1, warnLogs⟩
    | e :: _ =>
      let c := convert_to_parquet fs1 (pathJoin output_path e)
      ⟨c.result.map some, c.fs,
       warnLogs ++ [LogEvent.extracted e] ++ c.logs⟩

/-- Tail of download_file (src/load_data.py lines 495-499): a zip name
goes to unzip_file, anything else to convert_to_parquet. -/
def dispatchLocal (cfg : Config) (fs : FS) (fname output_file : String) :
    Except PyError (Option String) × FS × List LogEvent :=
  if strEndsWith fname ".zip" then
    let u := unzip_file fs fname output_file cfg.dlDir
    (u.result, u.fs, u.logs)
  else
    let c := convert_to_parquet fs output_file
    (c.result.map some, c.fs, c.logs)

/-- Outcome of download_file, with the number of HTTP requests issued. -/
structure DlOut where
  result : Except PyError (Option String)
  fs : FS
  netRequests : Nat
  logs : List LogEvent
  deriving DecidableEq, Repr

/-- LoadData.download_file (src/load_data.py lines 451-499).  The
target path is the final URL segment inside the download directory.
The GET is issued only when the global flag, the local flag, or the
absence of the target demands it; an html Page-Not-Found response is
fatal; otherwise the body is written (replacing any prior file) and
the result is produced by unzip_file or convert_to_parquet. -/
def download_file (cfg : Config) (net : Net) (fs : FS) (url : String)
    (force : Bool) : DlOut :=
  let fname := urlFname url
  let output_file := pathJoin cfg.dlDir fname
  if cfg.force_new_download || force || !(fs.files.contains output_file) then
    match List.lookup url net.responses with
    | none => ⟨.error .connectionError, fs, 1, []⟩
    | some r =>
      if isInvalidUrlResp r then ⟨.error (.invalidUrl url), fs, 1, []⟩
      else
        let fs1 : FS :=
          { fs with files := output_file :: fs.files.filter (fun p => p ≠ output_file) }
        let d := dispatchLocal cfg fs1 fname output_file
        ⟨d.1, d.2.1, 1, LogEvent.downloaded fname :: d.2.2⟩
  else
    let d := dispatchLocal cfg fs fname output_file
    ⟨d.1, d.2.1, 0, LogEvent.usingExisting fname :: d.2.2⟩

/-- A pandas cell: a value or NaN. -/
abbrev Cell := Option PyVal

/-- In-memory DataFrame: an optional index name, the index values, and
the named columns in order. -/
structure DF where
  indexName : Option String
  index : List Cell
  columns : List (String × List Cell)
  deriving DecidableEq, Repr

/-- Column labels in order. -/
def DF.colNames (df : DF) : List String := df.columns.map Prod.fst

/-- Column access by label. -/
def DF.getCol (df : DF) (c : String) : Option (List Cell) :=
  List.lookup c df.columns

/-- Number of rows. -/
def DF.nrows (df : DF) : Nat := df.index.length

/-- Cell of column c at row i, NaN when the column is absent or short. -/
def DF.cellAt (df : DF) (c : String) (i : Nat) : Cell :=
  match df.getCol c with
  | some cells => cells.getD i none
  | none => none

/-- pandas df with a list of labels: the subset in the requested
order; any absent label raises KeyError (modelled as none). -/
def DF.selectCols (df : DF) (cs : List String) : Option DF :=
  if cs.all (fun c => (df.getCol c).isSome) then
    some { indexName := df.indexName, index := df.index,
           columns := cs.map (fun c => (c, (df.getCol c).getD [])) }
  else none

/-- pandas set_index: move the named column into the index; an absent
label raises KeyError (modelled as none). -/
def DF.set_index (df : DF) (c : String) : Option DF :=
  match df.getCol c with
  | some cells =>
    some { indexName := some c, index := cells,
           columns := df.columns.filter (fun p => p.1 ≠ c) }
  | none => none

/-- Upper-case every column label (df.columns = c.upper() loop). -/
def DF.renameUpper (df : DF) : DF :=
  { df with columns := df.columns.map (fun p => (strToUpper p.1, p.2)) }

/-- pd.to_numeric with errors coerce followed by fillna(0): NaN and
unparsable strings become 0. -/
def toNumericFill0 (cells : List Cell) : List Cell :=
  cells.map (fun c =>
    match c with
    | none => some (.int 0)
    | some (.int n) => some (.int n)
    | some (.str s) => some (.int ((strToInt? s).getD 0)))

/-- A column has object dtype when it holds at least one string. -/
def isObjectCol (cells : List Cell) : Bool :=
  cells.any (fun c => match c with | some (.str _) => true | _ => false)

/-- fillna with the empty string on an object column. -/
def fillNaEmpty (cells : List Cell) : List Cell :=
  cells.map (fun c => match c with | none => some (.str "") | x => x)

/-- Tier 2/3 cleanup with no reference schema (src/load_data.py lines
309-317 and 334-342): columns in the numeric allow-list are coerced to
numeric with invalid values zeroed; remaining object columns have NaN
replaced by the empty string. -/
def localTierClean (numeric_columns : List String) (df : DF) : DF :=
  { df with columns := df.columns.map (fun p =>
      if p.1 ∈ numeric_columns then (p.1, toNumericFill0 p.2)
      else if isObjectCol p.2 then (p.1, fillNaEmpty p.2)
      else p) }

/-- pandas astype(str): every cell becomes a string; NaN prints as nan. -/
def astypeStr (cells : List Cell) : List Cell :=
  cells.map (fun c =>
    match c with
    | none => some (.str "nan")
    | some v => some (.str v.toStr))

/-- Dtype category of a reference column as used by _dtype_matcher:
object columns go to text, everything else is numeric. -/
inductive DTypeCat where
  | object
  | numeric
  deriving DecidableEq, Repr

/-- Dtype of a column of cells. -/
def dtypeOf (cells : List Cell) : DTypeCat :=
  if isObjectCol cells then .object else .numeric

/-- The _dtype_matcher closure (src/load_data.py lines 359-371): a
column present in the reference is coerced toward the reference dtype,
any other column is cast to string. -/
def dtypeMatcher (ref : DF) (name : String) (cells : List Cell) : List Cell :=
  match ref.getCol name with
  | some refCells =>
    match dtypeOf refCells with
    | .object => astypeStr cells
    | .numeric => toNumericFill0 cells
  | none => astypeStr cells

/-- df.apply(_dtype_matcher) over all columns. -/
def applyMatchDtypes (ref : DF) (df : DF) : DF :=
  { df with columns := df.columns.map (fun p => (p.1, dtypeMatcher ref p.1 p.2)) }

/-- df.to_csv with index written exactly when the index has a name
(src/load_data.py lines 376-377), as the file reads back: the index
becomes the leading column. -/
def DF.toCsvFile (df : DF) : DF :=
  match df.indexName with
  | some n =>
    { indexName := none, index := List.replicate df.index.length none,
      columns := (n, df.index) :: df.columns }
  | none =>
    { indexName := none, index := List.replicate df.index.length none,
      columns := df.columns }

/-- The cols argument of get_sql: the literal star string or a list of
column labels. -/
inductive ColsArg where
  | star
  | list (cs : List String)
  deriving DecidableEq, Repr

/-- State owned by the warehouse cache layer: the in-memory cache, the
names present in the downloads/nccs directory, the parsed parquet and
csv artifacts there, and the optional live connection giving each
(database, table) its contents. -/
structure SqlState where
  sql_cache : List (String × DF)
  dirFiles : List String
  parquetData : List (String × DF)
  csvData : List (String × DF)
  sql_connection : Option (List ((String × String) × DF))
  deriving DecidableEq, Repr

/-- Observable external actions of one get_sql call. -/
inductive SqlEffect where
  | readParquet (fname : String)
  | readCsv (fname : String)
  | liveQuery (fname : String)
  | wroteCsv (fname : String)
  deriving DecidableEq, Repr

/-- Outcome of get_sql: the returned table or the raised exception,
the state afterwards, and the external actions performed. -/
structure SqlOut where
  result : Except PyError DF
  state : SqlState
  effects : List SqlEffect
  deriving DecidableEq, Repr

/-- Processing shared by tiers 2 and 3 after the raw read
(src/load_data.py lines 306-317 and 331-342): set the index and, with
no reference schema, apply the local cleanup. -/
def tierLocalPost (numeric_columns : List String) (index_col : Option String)
    (match_dtypes : Option DF) (df0 : DF) : Except PyError DF :=
  match (match index_col with
         | some ic => df0.set_index ic
         | none => some df0) with
  | none => .error .keyError
  | some df1 =>
    match match_dtypes with
    | none => .ok (localTierClean numeric_columns df1)
    | some _ => .ok df1

/-- Tier 4 live query (src/load_data.py lines 344-374): select the
requested columns only under force_sql_cols, set the index during the
read, upper-case the labels, then reconcile toward the reference
schema when one is supplied. -/
def tierSql (db : List ((String × String) × DF)) (fname dbase : String)
    (cols : ColsArg) (index_col : Option String) (match_dtypes : Option DF)
    (force_sql_cols : Bool) : Except PyError DF :=
  match List.lookup (dbase, fname) db with
  | none => .error (.valueError "no such table")
  | some table =>
    match (if force_sql_cols then
             match cols with
             | .list cs => table.selectCols cs
             | .star => some table
           else some table) with
    | none => .error (.valueError "unknown column in select list")
    | some selected =>
      match (match index_col with
             | some ic => selected.set_index ic
             | none => some selected) with
      | none => .error .keyError
      | some indexed =>
        let upped := indexed.renameUpper
        match match_dtypes with
        | none => .ok upped
        | some ref => .ok (applyMatchDtypes ref upped)

/-- Final steps shared by tiers 2-4 (src/load_data.py lines 382-391):
store the table in the memory cache, then shape the return value:
star returns everything, a list returns that subset minus the EIN key
with labels upper-cased. -/
def finishGetSql (st : SqlState) (fname : String) (cols : ColsArg) (df : DF)
    (effs : List SqlEffect) : SqlOut :=
  let st1 := { st with
    sql_cache := (fname, df) :: st.sql_cache.filter (fun p => p.1 ≠ fname) }
  match cols with
  | .star => ⟨.ok df, st1, effs⟩
  | .list cs =>
    match df.selectCols (cs.filter (fun c => c ≠ "EIN")) with
    | some sel => ⟨.ok sel.renameUpper, st1, effs⟩
    | none => ⟨.error .keyError, st1, effs⟩

/-- Tiers 2-4 of get_sql (src/load_data.py lines 295-391), reached
when the memory tier does not satisfy the request: the parquet
artifact, else the csv artifact, else the live query (whose reconciled
result is persisted as a csv artifact), else a fatal error naming the
table. -/
def get_sql_lower (numeric_columns : List String) (st : SqlState)
    (fname dbase : String) (cols : ColsArg) (index_col : Option String)
    (match_dtypes : Option DF) (force_sql_cols : Bool) : SqlOut :=
  let existing_parquets := st.dirFiles.filter (fun f => strEndsWith f ".parquet")
  let existing_csvs := st.dirFiles.filter (fun f => strEndsWith f ".csv")
  if (fname ++ ".parquet") ∈ existing_parquets then
    match List.lookup (fname ++ ".parquet") st.parquetData with
    | none => ⟨.error (.fileNotFound (fname ++ ".parquet")), st,
               [.readParquet fname]⟩
    | some raw =>
      match tierLocalPost numeric_columns index_col match_dtypes raw with
      | .error e => ⟨.error e, st, [.readParquet fname]⟩
      | .ok df => finishGetSql st fname cols df [.readParquet fname]
  else if (fname ++ ".csv") ∈ existing_csvs then
    match List.lookup (fname ++ ".csv") st.csvData with
    | none => ⟨.error (.fileNotFound (fname ++ ".csv")), st, [.readCsv fname]⟩
    | some raw =>
      match tierLocalPost numeric_columns index_col match_dtypes raw with
      | .error e => ⟨.error e, st, [.readCsv fname]⟩
      | .ok df => finishGetSql st fname cols df [.readCsv fname]
  else
    match st.sql_connection with
    | some db =>
      match tierSql db fname dbase cols index_col match_dtypes force_sql_cols with
      | .error e => ⟨.error e, st, [.liveQuery fname]⟩
      | .ok df =>
        let csvName := fname ++ ".csv"
        let st1 := { st with
          dirFiles := if csvName ∈ st.dirFiles then st.dirFiles
                      else st.dirFiles ++ [csvName],
          csvData := (csvName, df.toCsvFile)
                     :: st.csvData.filter (fun p => p.1 ≠ csvName) }
        finishGetSql st1 fname cols df [.liveQuery fname, .wroteCsv fname]
    | none => ⟨.error (.noConnection fname), st, []⟩

/-- LoadData.get_sql (src/load_data.py lines 248-391).  The memory
tier returns the cached table (the requested subset of it when cols is
a list and every label is present, with no further shaping); a cached
table missing a requested label falls through to the lower tiers. -/
def get_sql (numeric_columns : List String) (st : SqlState)
    (fname dbase : String) (cols : ColsArg) (index_col : Option String)
    (match_dtypes : Option DF) (force_sql_cols : Bool) : SqlOut :=
  match List.lookup fname st.sql_cache with
  | some cached =>
    match cols with
    | .list cs =>
      (match cached.selectCols cs with
       | some sub => ⟨.ok sub, st, []⟩
       | none => get_sql_lower numeric_columns st fname dbase cols index_col
                   match_dtypes force_sql_cols)
    | .star => ⟨.ok cached, st, []⟩
  | none => get_sql_lower numeric_columns st fname dbase cols index_col
              match_dtypes force_sql_cols

/-- Memory-tier satisfaction: the table is cached and, for a column
list, every requested label is present in the cached columns. -/
def cacheSatisfies (st : SqlState) (fname : String) (cols : ColsArg) : Bool :=
  match List.lookup fname st.sql_cache, cols with
  | some df, .list cs => cs.all (fun c => (df.getCol c).isSome)
  | some _, .star => true
  | none, _ => false

/-- Strip the trailing newline a readline result carries. -/
def stripNl (line : String) : String :=
  if line.data.getLast? = some '\n' then ⟨line.data.dropLast⟩ else line

/-- A line skipped by skip_blank_lines. -/
def isBlankLine (line : String) : Bool := stripNl line = ""

/-- One csv field under the default NA filtering of pandas read_csv:
an empty field parses as NaN, anything else as its string (dtype str). -/
def parseField (s : String) : Cell :=
  if s = "" then none else some (.str s)

/-- Split one line at the delimiter and parse each field. -/
def parseLine (delim : Char) (line : String) : List Cell :=
  (strSplitOnChar delim (stripNl line)).map parseField

/-- pd.read_csv with skip_blank_lines, usecols 0 and 1 and no header
(src/load_data.py lines 411-416): each surviving line contributes its
first two fields, a missing field being NaN. -/
def parseCsvNoHeader (delim : Char) (lines : List String) :
    List (Cell × Cell) :=
  (lines.filter (fun l => !(isBlankLine l))).map (fun l =>
    let fs := parseLine delim l
    (fs.getD 0 none, fs.getD 1 none))

/-- pandas index.astype(int64) on one cell: NaN and unparsable strings
raise; ints and integer strings convert. -/
def cellToInt64 : Cell → Except PyError Int
  | none => .error .castError
  | some (.int n) => .ok n
  | some (.str s) =>
    match strToInt? s with
    | some n => .ok n
    | none => .error .castError

/-- Monadic map over Except, stopping at the first error. -/
def mapExcept (f : α → Except PyError β) : List α → Except PyError (List β)
  | [] => .ok []
  | x :: xs =>
    match f x with
    | .error e => .error e
    | .ok y =>
      match mapExcept f xs with
      | .error e => .error e
      | .ok ys => .ok (y :: ys)

/-- The epostcard table after load: integer EIN index and the date
column. -/
structure EpostDF where
  index : List Int
  dates : List Cell
  deriving DecidableEq, Repr

/-- LoadData.download_epostcard (src/load_data.py lines 393-421),
modelled from the read_csv of the freshly downloaded snapshot: parse
the headerless two-column layout, set EIN as the index, convert it to
int64, filter out rows whose date equals the empty string (a NaN date
is unequal to the empty string and survives), then assert that the
index is unique. -/
def download_epostcard (delim : Char) (lines : List String) :
    Except PyError EpostDF :=
  let rows := parseCsvNoHeader delim lines
  match mapExcept (fun r => cellToInt64 r.1) rows with
  | .error e => .error e
  | .ok eins =>
    let pairs := eins.zip (rows.map Prod.snd)
    let kept := pairs.filter (fun p => p.2 ≠ some (PyVal.str ""))
    if (kept.map Prod.fst).Nodup then
      .ok ⟨kept.map Prod.fst, kept.map Prod.snd⟩
    else .error (.assertionError "Expected unique EINs in epostcard data.")

/-- Insertion into a list of keyed tables kept sorted by key. -/
def insertByKey (p : String × DF) : List (String × DF) → List (String × DF)
  | [] => [p]
  | q :: qs =>
    if compare p.1 q.1 ≠ Ordering.gt then p :: q :: qs
    else q :: insertByKey p qs

/-- pd.concat over a dict uses its keys sorted. -/
def sortByKey : List (String × DF) → List (String × DF)
  | [] => []
  | p :: ps => insertByKey p (sortByKey ps)

/-- Column labels of the concatenation: union in order of first
appearance. -/
def unionHeaders (tables : List DF) : List String :=
  (tables.flatMap DF.colNames).eraseDups

/-- pd.concat over keyed tables: rows of every table stacked in key
order, columns aligned by label with NaN fill; the concatenated input
index stands for the key multi-index, which set_index then discards. -/
def concatKeyed (dfs : List (String × DF)) : DF :=
  let tables := (sortByKey dfs).map Prod.snd
  { indexName := none,
    index := tables.flatMap DF.index,
    columns := (unionHeaders tables).map (fun h =>
      (h, tables.flatMap (fun t => (List.range t.nrows).map (t.cellAt h)))) }

/-- LoadData.download_bmf (src/load_data.py lines 423-449), modelled
from the point where every configured region has been downloaded and
read into its table: concatenate the regions, set EIN as the index,
and assert that the combined index is unique. -/
def download_bmf (bmf_data : List (String × DF)) : Except PyError DF :=
  match (concatKeyed bmf_data).set_index "EIN" with
  | none => .error .keyError
  | some df =>
    if df.index.Nodup then .ok df
    else .error (.assertionError "Expected unique EINs in BMF data.")

/-! Helper lemmas. -/

theorem FS.mem_addFile_self (fs : FS) (p : String) : p ∈ (fs.addFile p).files := by
  unfold FS.addFile
  by_cases h : p ∈ fs.files <;> simp [h]

theorem FS.mem_addFile (fs : FS) (p x : String) (h : x ∈ fs.files) :
    x ∈ (fs.addFile p).files := by
  unfold FS.addFile
  by_cases hp : p ∈ fs.files <;> simp [hp, h]

theorem FS.mem_addFiles (l : List String) (fs : FS) (x : String)
    (h : x ∈ fs.files) : x ∈ (fs.addFiles l).files := by
  induction l generalizing fs with
  | nil => exact h
  | cons p ps ih => exact ih (fs.addFile p) (fs.mem_addFile p x h)

theorem pyGT_error_shape (a b : PyVal) (e : PyError) (h : pyGT a b = .error e) :
    ∃ t1 t2, e = .typeError t1 t2 ∧ t1 ≠ t2 := by
  cases a <;> cases b <;> simp only [pyGT] at h
  · exact absurd h (by simp)
  · exact ⟨"int", "str", by simpa using h.symm, by decide⟩
  · exact ⟨"str", "int", by simpa using h.symm, by decide⟩
  · exact absurd h (by simp)

theorem pymaxLoop_error (xs : List PyVal) : ∀ (m : PyVal) (e : PyError),
    pymaxLoop m xs = .error e → ∃ t1 t2, e = .typeError t1 t2 ∧ t1 ≠ t2 := by
  induction xs with
  | nil => intro m e h; simp [pymaxLoop] at h
  | cons x xs ih =>
    intro m e h
    unfold pymaxLoop at h
    cases hg : pyGT x m with
    | ok b =>
      rw [hg] at h
      cases b with
      | true => exact ih x e h
      | false => exact ih m e h
    | error e2 =>
      rw [hg] at h
      have he : e2 = e := by
        have h2 : (Except.error e2 : Except PyError PyVal) = .error e := h
        exact (Except.error.injEq e2 e).mp h2
      exact he ▸ pyGT_error_shape x m e2 hg

theorem pymax_error_shape (a : List PyVal) (e : PyError)
    (h : pymax a = .error e) :
    e = .valueError "max() arg is an empty sequence" ∨
      ∃ t1 t2, e = .typeError t1 t2 ∧ t1 ≠ t2 := by
  cases a with
  | nil => simp only [pymax, Except.error.injEq] at h; exact Or.inl h.symm
  | cons x xs => exact Or.inr (pymaxLoop_error xs x e h)

/-! Claim theorems. -/

/-- C4: for ambiguous-text input the delimiter is sniffed from the
first non-blank line, testing pipe, then comma, then space in strict
priority order, the first match winning even when a lower-priority
character is also present; the spec examples evaluate accordingly, and
an empty input leaves the delimiter unset and logs the
unable-to-determine warning. -/
theorem dat_delimiter_priority :
    (∀ lines : List String,
      (strContains (firstNonBlankLine lines) '|' = true →
        sniffDelim (firstNonBlankLine lines) = some '|') ∧
      (strContains (firstNonBlankLine lines) '|' = false →
        strContains (firstNonBlankLine lines) ',' = true →
        sniffDelim (firstNonBlankLine lines) = some ',') ∧
      (strContains (firstNonBlankLine lines) '|' = false →
        strContains (firstNonBlankLine lines) ',' = false →
        strContains (firstNonBlankLine lines) ' ' = true →
        sniffDelim (firstNonBlankLine lines) = some ' ') ∧
      (strContains (firstNonBlankLine lines) '|' = false →
        strContains (firstNonBlankLine lines) ',' = false →
        strContains (firstNonBlankLine lines) ' ' = false →
        sniffDelim (firstNonBlankLine lines) = none)) ∧
    sniffDelim "a|b,c" = some '|' ∧
    sniffDelim "a,b c" = some ',' ∧
    sniffDelim "a b" = some ' ' ∧
    firstNonBlankLine [] = "" ∧
    sniffDelim (firstNonBlankLine []) = none ∧
    (convert_to_parquet ⟨["e.dat"], [("e.dat", [])], [], []⟩ "e.dat").logs
      = [LogEvent.converting "e.dat", LogEvent.noDelim ""] := by
  refine ⟨fun lines => ⟨?_, ?_, ?_, ?_⟩, ?_, ?_, ?_, ?_, ?_, ?_⟩
  · intro h1; simp [sniffDelim, h1]
  · intro h1 h2; simp [sniffDelim, h1, h2]
  · intro h1 h2 h3; simp [sniffDelim, h1, h2, h3]
  · intro h1 h2 h3; simp [sniffDelim, h1, h2, h3]
  · decide
  · decide
  · decide
  · rfl
  · decide
  · decide

/-- Witness for C4 at the concrete line a-space-b: neither pipe nor
comma occurs, space does, and the sniffer yields the space delimiter. -/
theorem dat_delimiter_priority_witness :
    strContains (firstNonBlankLine ["a b\n"]) '|' = false ∧
    strContains (firstNonBlankLine ["a b\n"]) ',' = false ∧
    strContains (firstNonBlankLine ["a b\n"]) ' ' = true ∧
    sniffDelim (firstNonBlankLine ["a b\n"]) = some ' ' :=
  ⟨by decide, by decide, by decide,
   (dat_delimiter_priority.1 ["a b\n"]).2.2.1 (by decide) (by decide) (by decide)⟩

/-- C5: ismixed reports mixed exactly when the maximum computation
raises a comparison TypeError, and reports uniform both on success and
on the empty-sequence ValueError; the spec examples evaluate
accordingly. -/
theorem ismixed_classification :
    (∀ a : List PyVal,
      (ismixed a = .ok true ↔ ∃ t1 t2, pymax a = .error (.typeError t1 t2)) ∧
      (∀ v, pymax a = .ok v → ismixed a = .ok false) ∧
      (∀ msg, pymax a = .error (.valueError msg) → ismixed a = .ok false)) ∧
    ismixed [.int 1, .int 2, .str "x"] = .ok true ∧
    ismixed [.int 1, .int 2, .int 3] = .ok false ∧
    ismixed [] = .ok false := by
  refine ⟨fun a => ⟨⟨?_, ?_⟩, ?_, ?_⟩, by decide, by decide, by decide⟩
  · intro hm
    cases hp : pymax a with
    | ok v => simp [ismixed, hp] at hm
    | error e =>
      rcases pymax_error_shape a e hp with he | ⟨t1, t2, he, hne⟩
      · subst he; simp [ismixed, hp] at hm
      · subst he; exact ⟨t1, t2, rfl⟩
  · rintro ⟨t1, t2, hp⟩
    rcases pymax_error_shape a _ hp with hv | ⟨u1, u2, heq, hne⟩
    · exact absurd hv (by simp)
    · injection heq with h1 h2
      subst h1; subst h2
      simp [ismixed, hp, hne]
  · intro v h; simp [ismixed, h]
  · intro msg h
    rcases pymax_error_shape a _ h with hv | ⟨u1, u2, heq, _⟩
    · injection hv with hmsg
      simp [ismixed, h, hmsg]
    · exact absurd heq (by simp)

/-- Witness for C5: on a homogeneous list the maximum succeeds and the
classification is uniform. -/
theorem ismixed_classification_witness :
    pymax [PyVal.int 1, PyVal.int 2] = .ok (.int 2) ∧
    ismixed [PyVal.int 1, PyVal.int 2] = .ok false :=
  ⟨by decide, (ismixed_classification.1 [PyVal.int 1, PyVal.int 2]).2.1
    (.int 2) (by decide)⟩

/-- C9 failing input: a dat artifact whose first non-blank line is the
text abc, which contains no pipe, comma or space.  Instead of the
non-fatal warning the spec promises, convert_to_parquet raises
UnboundLocalError on the read that uses the never-assigned delimiter
variable, after logging the warning. -/
theorem convert_unsniffable_dat_fatal :
    (convert_to_parquet ⟨["f.dat"], [("f.dat", ["abc"])], [], []⟩ "f.dat").result
      = .error (.unboundLocal "delim") ∧
    (convert_to_parquet ⟨["f.dat"], [("f.dat", ["abc"])], [], []⟩ "f.dat").logs
      = [LogEvent.converting "f.dat", LogEvent.noDelim "abc"] := by
  exact ⟨by decide, by decide⟩

/-- C7 failing input: the epostcard snapshot with one well-formed row
and one row whose date field is empty.  The empty field parses as NaN,
NaN is unequal to the empty string, so the date filter keeps the row
and the returned table contains a row with a missing filing date. -/
theorem epostcard_keeps_missing_date_row :
    download_epostcard '|' ["1|x\n", "2|\n"]
      = .ok ⟨[1, 2], [some (.str "x"), none]⟩ := by
  decide

theorem convert_files_mono (fs : FS) (p x : String) (h : x ∈ fs.files) :
    x ∈ (convert_to_parquet fs p).fs.files := by
  unfold convert_to_parquet
  dsimp only
  repeat' split
  all_goals first
    | exact h
    | exact FS.mem_addFile _ _ _ h

theorem unzip_files_mono (fs : FS) (fname output_file dir x : String)
    (h : x ∈ fs.files) : x ∈ (unzip_file fs fname output_file dir).fs.files := by
  unfold unzip_file
  dsimp only
  repeat' split
  all_goals first
    | exact h
    | exact FS.mem_addFiles _ _ _ h
    | exact convert_files_mono _ _ _ (FS.mem_addFiles _ _ _ h)

theorem dispatchLocal_files_mono (cfg : Config) (fs : FS)
    (fname output_file x : String) (h : x ∈ fs.files) :
    x ∈ (dispatchLocal cfg fs fname output_file).2.1.files := by
  unfold dispatchLocal
  split
  · exact unzip_files_mono _ _ _ _ _ h
  · exact convert_files_mono _ _ _ h

/-- C3: conversion to the canonical columnar artifact is idempotent.
When the parquet artifact already exists beside the raw path the
function does no conversion work (no logs, unchanged filesystem) and
returns the existing artifact path; and a second run after any
successful run returns the same path without touching the filesystem
again, so the artifact is created at most once per raw artifact. -/
theorem convert_to_parquet_idempotent :
    (∀ (fs : FS) (p : String), parquetPath p ∈ fs.files →
      convert_to_parquet fs p = ⟨.ok (parquetPath p), fs, []⟩) ∧
    (∀ (fs : FS) (p : String),
      (convert_to_parquet (convert_to_parquet fs p).fs p).result
          = (convert_to_parquet fs p).result ∧
      (convert_to_parquet (convert_to_parquet fs p).fs p).fs
          = (convert_to_parquet fs p).fs) := by
  have hbase : ∀ (fs : FS) (p : String), parquetPath p ∈ fs.files →
      convert_to_parquet fs p = ⟨.ok (parquetPath p), fs, []⟩ := by
    intro fs p h
    simp [convert_to_parquet, h]
  refine ⟨hbase, ?_⟩
  intro fs p
  by_cases hpq : parquetPath p ∈ fs.files
  · rw [hbase fs p hpq]
    constructor
    · show (convert_to_parquet fs p).result = Except.ok (parquetPath p)
      rw [hbase fs p hpq]
    · show (convert_to_parquet fs p).fs = fs
      rw [hbase fs p hpq]
  · by_cases hcsv : (splitext p).2 = ".csv"
    · by_cases hp : p ∈ fs.files
      · have hc : convert_to_parquet fs p
            = ⟨.ok (parquetPath p), fs.addFile (parquetPath p),
               [LogEvent.converting p]⟩ := by
          simp [convert_to_parquet, hpq, hcsv, hp]
        rw [hc]
        have h2 := hbase (fs.addFile (parquetPath p)) p
          (fs.mem_addFile_self (parquetPath p))
        constructor
        · show (convert_to_parquet (fs.addFile (parquetPath p)) p).result
            = Except.ok (parquetPath p)
          rw [h2]
        · show (convert_to_parquet (fs.addFile (parquetPath p)) p).fs
            = fs.addFile (parquetPath p)
          rw [h2]
      · have hc : convert_to_parquet fs p
            = ⟨.error (.fileNotFound p), fs, [LogEvent.converting p]⟩ := by
          simp [convert_to_parquet, hpq, hcsv, hp]
        rw [hc]
        constructor
        · show (convert_to_parquet fs p).result = Except.error (.fileNotFound p)
          rw [hc]
        · show (convert_to_parquet fs p).fs = fs
          rw [hc]
    · by_cases hxlsx : (splitext p).2 = ".xlsx"
      · cases hlk : List.lookup p fs.xlsxData with
        | none =>
          have hc : convert_to_parquet fs p
              = ⟨.error (.fileNotFound p), fs, [LogEvent.converting p]⟩ := by
            simp [convert_to_parquet, hpq, hcsv, hxlsx, hlk]
          rw [hc]
          constructor
          · show (convert_to_parquet fs p).result = Except.error (.fileNotFound p)
            rw [hc]
          · show (convert_to_parquet fs p).fs = fs
            rw [hc]
        | some cols =>
          cases hcm : coerceMixed cols with
          | error e =>
            have hc : convert_to_parquet fs p
                = ⟨.error e, fs, [LogEvent.converting p]⟩ := by
              simp [convert_to_parquet, hpq, hcsv, hxlsx, hlk, hcm]
            rw [hc]
            constructor
            · show (convert_to_parquet fs p).result = Except.error e
              rw [hc]
            · show (convert_to_parquet fs p).fs = fs
              rw [hc]
          | ok pr =>
            have hc : convert_to_parquet fs p
                = ⟨.ok (parquetPath p), fs.addFile (parquetPath p),
                   [LogEvent.converting p] ++ pr.2⟩ := by
              simp [convert_to_parquet, hpq, hcsv, hxlsx, hlk, hcm]
            rw [hc]
            have h2 := hbase (fs.addFile (parquetPath p)) p
              (fs.mem_addFile_self (parquetPath p))
            constructor
            · show (convert_to_parquet (fs.addFile (parquetPath p)) p).result
                = Except.ok (parquetPath p)
              rw [h2]
            · show (convert_to_parquet (fs.addFile (parquetPath p)) p).fs
                = fs.addFile (parquetPath p)
              rw [h2]
      · by_cases hdat : (splitext p).2 = ".dat"
        · cases hlk : List.lookup p fs.datData with
          | none =>
            have hc : convert_to_parquet fs p
                = ⟨.error (.fileNotFound p), fs, [LogEvent.converting p]⟩ := by
              simp [convert_to_parquet, hpq, hcsv, hxlsx, hdat, hlk]
            rw [hc]
            constructor
            · show (convert_to_parquet fs p).result = Except.error (.fileNotFound p)
              rw [hc]
            · show (convert_to_parquet fs p).fs = fs
              rw [hc]
          | some lines =>
            cases hsn : sniffDelim (firstNonBlankLine lines) with
            | some d =>
              have hc : convert_to_parquet fs p
                  = ⟨.ok (parquetPath p), fs.addFile (parquetPath p),
                     [LogEvent.converting p]⟩ := by
                simp [convert_to_parquet, hpq, hcsv, hxlsx, hdat, hlk, hsn]
              rw [hc]
              have h2 := hbase (fs.addFile (parquetPath p)) p
                (fs.mem_addFile_self (parquetPath p))
              constructor
              · show (convert_to_parquet (fs.addFile (parquetPath p)) p).result
                  = Except.ok (parquetPath p)
                rw [h2]
              · show (convert_to_parquet (fs.addFile (parquetPath p)) p).fs
                  = fs.addFile (parquetPath p)
                rw [h2]
            | none =>
              have hc : convert_to_parquet fs p
                  = ⟨.error (.unboundLocal "delim"), fs,
                     [LogEvent.converting p,
                      LogEvent.noDelim (firstNonBlankLine lines)]⟩ := by
                simp [convert_to_parquet, hpq, hcsv, hxlsx, hdat, hlk, hsn]
              rw [hc]
              constructor
              · show (convert_to_parquet fs p).result
                  = Except.error (.unboundLocal "delim")
                rw [hc]
              · show (convert_to_parquet fs p).fs = fs
                rw [hc]
        · have hc : convert_to_parquet fs p
              = ⟨.ok p, fs, [LogEvent.converting p, LogEvent.unsupported p]⟩ := by
            simp [convert_to_parquet, hpq, hcsv, hxlsx, hdat]
          rw [hc]
          constructor
          · show (convert_to_parquet fs p).result = Except.ok p
            rw [hc]
          · show (convert_to_parquet fs p).fs = fs
            rw [hc]

/-- Witness for C3 at a concrete filesystem that already holds the
canonical artifact beside the raw csv. -/
theorem convert_to_parquet_idempotent_witness :
    parquetPath "a.csv" ∈ (FS.mk ["a.parquet"] [] [] []).files ∧
    convert_to_parquet ⟨["a.parquet"], [], [], []⟩ "a.csv"
      = ⟨.ok (parquetPath "a.csv"), ⟨["a.parquet"], [], [], []⟩, []⟩ :=
  ⟨by decide,
   convert_to_parquet_idempotent.1 ⟨["a.parquet"], [], [], []⟩ "a.csv" (by decide)⟩

/-- C10: an archive with zero entries makes the per-entry loop body of
unzip_file never run, so the function returns None and acquisition
yields no artifact path; an archive with at least one entry returns
the normalized form of the first listed entry only, whatever the rest
of the entries are. -/
theorem unzip_file_first_entry :
    (∀ (fs : FS) (fname output_file dir : String),
      List.lookup output_file fs.zipEntries = some [] →
      (unzip_file fs fname output_file dir).result = .ok none) ∧
    (∀ (fs : FS) (fname output_file dir e : String) (rest : List String),
      List.lookup output_file fs.zipEntries = some (e :: rest) →
      (unzip_file fs fname output_file dir).result
        = (convert_to_parquet (fs.addFiles ((e :: rest).map (pathJoin dir)))
            (pathJoin dir e)).result.map some) := by
  constructor
  · intro fs fname output_file dir h
    simp [unzip_file, h]
  · intro fs fname output_file dir e rest h
    simp [unzip_file, h]

/-- Witness for C10: a concrete empty archive returns None, and a
concrete two-entry archive returns the converted first entry. -/
theorem unzip_file_first_entry_witness :
    List.lookup "dl/z.zip" (FS.mk [] [] [] [("dl/z.zip", [])]).zipEntries
        = some [] ∧
    (unzip_file ⟨[], [], [], [("dl/z.zip", [])]⟩ "z.zip" "dl/z.zip" "dl").result
        = .ok none ∧
    (unzip_file ⟨[], [], [], [("dl/y.zip", ["a.bin", "b.bin"])]⟩
        "y.zip" "dl/y.zip" "dl").result
      = (convert_to_parquet
          ((FS.mk [] [] [] [("dl/y.zip", ["a.bin", "b.bin"])]).addFiles
            ((["a.bin", "b.bin"]).map (pathJoin "dl")))
          (pathJoin "dl" "a.bin")).result.map some :=
  ⟨by decide,
   unzip_file_first_entry.1 ⟨[], [], [], [("dl/z.zip", [])]⟩ "z.zip" "dl/z.zip"
     "dl" (by decide),
   unzip_file_first_entry.2 ⟨[], [], [], [("dl/y.zip", ["a.bin", "b.bin"])]⟩
     "y.zip" "dl/y.zip" "dl" "a.bin" ["b.bin"] (by decide)⟩

/-- C2: when the local target derived from the final URL segment
already exists and neither force flag is set, download_file issues no
HTTP request and its value is produced by processing the existing file;
and starting from a state without the target, a valid response makes
the first acquisition issue exactly one request and the second none,
so acquiring the same URL twice performs exactly one request. -/
theorem download_file_idempotent :
    ∀ (cfg : Config) (net : Net) (fs : FS) (url : String) (r : Response),
    cfg.force_new_download = false →
    ((pathJoin cfg.dlDir (urlFname url)) ∈ fs.files →
      (download_file cfg net fs url false).netRequests = 0 ∧
      (download_file cfg net fs url false).result
        = (dispatchLocal cfg fs (urlFname url)
            (pathJoin cfg.dlDir (urlFname url))).1) ∧
    ((pathJoin cfg.dlDir (urlFname url)) ∉ fs.files →
      List.lookup url net.responses = some r →
      isInvalidUrlResp r = false →
      (download_file cfg net fs url false).netRequests = 1 ∧
      (download_file cfg net (download_file cfg net fs url false).fs url
          false).netRequests = 0) := by
  intro cfg net fs url r hforce
  constructor
  · intro hmem
    constructor
    · show (download_file cfg net fs url false).netRequests = 0
      simp [download_file, hforce, hmem]
    · simp [download_file, hforce, hmem]
  · intro hmem hresp hvalid
    have hn1 : (download_file cfg net fs url false).netRequests = 1 := by
      simp [download_file, hforce, hmem, hresp, hvalid]
    have hfs : (download_file cfg net fs url false).fs
        = (dispatchLocal cfg
            ⟨pathJoin cfg.dlDir (urlFname url)
               :: fs.files.filter (fun p => p ≠ pathJoin cfg.dlDir (urlFname url)),
             fs.datData, fs.xlsxData, fs.zipEntries⟩
            (urlFname url) (pathJoin cfg.dlDir (urlFname url))).2.1 := by
      simp [download_file, hforce, hmem, hresp, hvalid]
    refine ⟨hn1, ?_⟩
    rw [hfs]
    have hmem1 : pathJoin cfg.dlDir (urlFname url)
        ∈ ((dispatchLocal cfg
            ⟨pathJoin cfg.dlDir (urlFname url)
               :: fs.files.filter (fun p => p ≠ pathJoin cfg.dlDir (urlFname url)),
             fs.datData, fs.xlsxData, fs.zipEntries⟩
            (urlFname url) (pathJoin cfg.dlDir (urlFname url))).2.1).files :=
      dispatchLocal_files_mono _ _ _ _ _ (List.mem_cons_self _ _)
    have hc2 : ((dispatchLocal cfg
        ⟨pathJoin cfg.dlDir (urlFname url)
           :: fs.files.filter (fun p => p ≠ pathJoin cfg.dlDir (urlFname url)),
         fs.datData, fs.xlsxData, fs.zipEntries⟩
        (urlFname url) (pathJoin cfg.dlDir (urlFname url))).2.1).files.contains
        (pathJoin cfg.dlDir (urlFname url)) = true := by
      simpa using hmem1
    show (download_file cfg net _ url false).netRequests = 0
    simp only [download_file]
    rw [hforce, hc2]
    simp

/-- Witness for C2: a concrete fresh state downloads once, and the
immediately following acquisition of the same URL downloads nothing. -/
theorem download_file_idempotent_witness :
    (pathJoin (Config.mk "dl" false).dlDir (urlFname "https://x.org/a.csv")
        ∉ (FS.mk [] [] [] []).files) ∧
    List.lookup "https://x.org/a.csv"
        (Net.mk [("https://x.org/a.csv", ⟨"text/csv", "payload"⟩)]).responses
      = some ⟨"text/csv", "payload"⟩ ∧
    isInvalidUrlResp ⟨"text/csv", "payload"⟩ = false ∧
    (download_file ⟨"dl", false⟩ ⟨[("https://x.org/a.csv", ⟨"text/csv", "payload"⟩)]⟩
        ⟨[], [], [], []⟩ "https://x.org/a.csv" false).netRequests = 1 ∧
    (download_file ⟨"dl", false⟩ ⟨[("https://x.org/a.csv", ⟨"text/csv", "payload"⟩)]⟩
        (download_file ⟨"dl", false⟩
          ⟨[("https://x.org/a.csv", ⟨"text/csv", "payload"⟩)]⟩
          ⟨[], [], [], []⟩ "https://x.org/a.csv" false).fs
        "https://x.org/a.csv" false).netRequests = 0 := by
  refine ⟨by decide, by decide, by decide, ?_, ?_⟩
  · exact ((download_file_idempotent ⟨"dl", false⟩
      ⟨[("https://x.org/a.csv", ⟨"text/csv", "payload"⟩)]⟩ ⟨[], [], [], []⟩
      "https://x.org/a.csv" ⟨"text/csv", "payload"⟩ rfl).2 (by decide) (by decide)
      (by decide)).1
  · exact ((download_file_idempotent ⟨"dl", false⟩
      ⟨[("https://x.org/a.csv", ⟨"text/csv", "payload"⟩)]⟩ ⟨[], [], [], []⟩
      "https://x.org/a.csv" ⟨"text/csv", "payload"⟩ rfl).2 (by decide) (by decide)
      (by decide)).2

theorem finishGetSql_effects (st : SqlState) (fname : String) (cols : ColsArg)
    (df : DF) (effs : List SqlEffect) :
    (finishGetSql st fname cols df effs).effects = effs := by
  unfold finishGetSql
  cases cols with
  | star => rfl
  | list cs =>
    dsimp only
    split <;> rfl

theorem get_sql_eq_lower (nc : List String) (st : SqlState)
    (fname dbase : String) (cols : ColsArg) (ic : Option String)
    (md : Option DF) (fsc : Bool)
    (h : cacheSatisfies st fname cols = false) :
    get_sql nc st fname dbase cols ic md fsc
      = get_sql_lower nc st fname dbase cols ic md fsc := by
  unfold get_sql
  unfold cacheSatisfies at h
  cases hlk : List.lookup fname st.sql_cache with
  | none => rfl
  | some cached =>
    rw [hlk] at h
    cases cols with
    | star => simp at h
    | list cs =>
      have hsel : cached.selectCols cs = none := by
        unfold DF.selectCols
        simp only at h
        rw [if_neg]
        simp [h]
      simp [hsel]

/-- C1: get_sql consults the memory cache, then the local parquet
artifact, then the local csv artifact, then the live query, returning
from the first tier that satisfies the request: a satisfying memory
entry is returned with no reads and no query; a cached entry missing a
requested column falls through to the lower tiers; with the memory tier
unsatisfied, an existing parquet artifact is read and the csv artifact
is never read and the connection never queried; with no parquet
artifact an existing csv artifact is read without querying; only with
neither artifact is the live connection queried, and with no connection
either the call fails naming the table. -/
theorem get_sql_four_tier_order :
    ∀ (nc : List String) (st : SqlState) (fname dbase : String) (cols : ColsArg)
      (ic : Option String) (md : Option DF) (fsc : Bool),
    (∀ cached, List.lookup fname st.sql_cache = some cached → cols = .star →
        get_sql nc st fname dbase cols ic md fsc = ⟨.ok cached, st, []⟩) ∧
    (∀ cached cs sub, List.lookup fname st.sql_cache = some cached →
        cols = .list cs → cached.selectCols cs = some sub →
        get_sql nc st fname dbase cols ic md fsc = ⟨.ok sub, st, []⟩) ∧
    (∀ cached cs, List.lookup fname st.sql_cache = some cached →
        cols = .list cs → cached.selectCols cs = none →
        get_sql nc st fname dbase cols ic md fsc
          = get_sql_lower nc st fname dbase cols ic md fsc) ∧
    (cacheSatisfies st fname cols = false →
        (fname ++ ".parquet")
            ∈ st.dirFiles.filter (fun f => strEndsWith f ".parquet") →
        (get_sql nc st fname dbase cols ic md fsc).effects
          = [.readParquet fname]) ∧
    (cacheSatisfies st fname cols = false →
        (fname ++ ".parquet")
            ∉ st.dirFiles.filter (fun f => strEndsWith f ".parquet") →
        (fname ++ ".csv") ∈ st.dirFiles.filter (fun f => strEndsWith f ".csv") →
        (get_sql nc st fname dbase cols ic md fsc).effects = [.readCsv fname]) ∧
    (∀ db, cacheSatisfies st fname cols = false →
        (fname ++ ".parquet")
            ∉ st.dirFiles.filter (fun f => strEndsWith f ".parquet") →
        (fname ++ ".csv") ∉ st.dirFiles.filter (fun f => strEndsWith f ".csv") →
        st.sql_connection = some db →
        ((get_sql nc st fname dbase cols ic md fsc).effects
            = [.liveQuery fname] ∨
         (get_sql nc st fname dbase cols ic md fsc).effects
            = [.liveQuery fname, .wroteCsv fname])) ∧
    (cacheSatisfies st fname cols = false →
        (fname ++ ".parquet")
            ∉ st.dirFiles.filter (fun f => strEndsWith f ".parquet") →
        (fname ++ ".csv") ∉ st.dirFiles.filter (fun f => strEndsWith f ".csv") →
        st.sql_connection = none →
        (get_sql nc st fname dbase cols ic md fsc).result
          = .error (.noConnection fname)) := by
  intro nc st fname dbase cols ic md fsc
  refine ⟨?_, ?_, ?_, ?_, ?_, ?_, ?_⟩
  · intro cached hlk hcols
    subst hcols
    simp [get_sql, hlk]
  · intro cached cs sub hlk hcols hsel
    subst hcols
    simp [get_sql, hlk, hsel]
  · intro cached cs hlk hcols hsel
    subst hcols
    simp [get_sql, hlk, hsel]
  · intro hcs hp
    rw [get_sql_eq_lower nc st fname dbase cols ic md fsc hcs]
    unfold get_sql_lower
    dsimp only
    rw [if_pos hp]
    cases hlk : List.lookup (fname ++ ".parquet") st.parquetData with
    | none => rfl
    | some raw =>
      cases htp : tierLocalPost nc ic md raw with
      | error e => simp [htp]
      | ok df => simp [htp, finishGetSql_effects]
  · intro hcs hp hcsvm
    rw [get_sql_eq_lower nc st fname dbase cols ic md fsc hcs]
    unfold get_sql_lower
    dsimp only
    rw [if_neg hp, if_pos hcsvm]
    cases hlk : List.lookup (fname ++ ".csv") st.csvData with
    | none => rfl
    | some raw =>
      cases htp : tierLocalPost nc ic md raw with
      | error e => simp [htp]
      | ok df => simp [htp, finishGetSql_effects]
  · intro db hcs hp hcsvm hconn
    rw [get_sql_eq_lower nc st fname dbase cols ic md fsc hcs]
    unfold get_sql_lower
    dsimp only
    rw [if_neg hp, if_neg hcsvm, hconn]
    cases hts : tierSql db fname dbase cols ic md fsc with
    | error e => exact Or.inl (by simp [hts])
    | ok df => exact Or.inr (by simp [hts, finishGetSql_effects])
  · intro hcs hp hcsvm hconn
    rw [get_sql_eq_lower nc st fname dbase cols ic md fsc hcs]
    unfold get_sql_lower
    dsimp only
    rw [if_neg hp, if_neg hcsvm, hconn]

/-- Witness for C1 at a concrete state holding both a parquet and a
csv artifact for the same table and an empty memory cache: resolution
reads the parquet artifact only. -/
theorem get_sql_four_tier_order_witness :
    cacheSatisfies
        ⟨[], ["t.parquet", "t.csv"],
         [("t.parquet", ⟨none, [some (.str "1")], [("EIN", [some (.str "1")])]⟩)],
         [("t.csv", ⟨none, [some (.str "1")], [("EIN", [some (.str "1")])]⟩)],
         none⟩ "t" .star = false ∧
    ("t" ++ ".parquet")
        ∈ (["t.parquet", "t.csv"]).filter (fun f => strEndsWith f ".parquet") ∧
    (get_sql []
        ⟨[], ["t.parquet", "t.csv"],
         [("t.parquet", ⟨none, [some (.str "1")], [("EIN", [some (.str "1")])]⟩)],
         [("t.csv", ⟨none, [some (.str "1")], [("EIN", [some (.str "1")])]⟩)],
         none⟩ "t" "nccs" .star (some "EIN") none false).effects
      = [.readParquet "t"] := by
  refine ⟨by decide, by decide, ?_⟩
  exact (get_sql_four_tier_order []
    ⟨[], ["t.parquet", "t.csv"],
     [("t.parquet", ⟨none, [some (.str "1")], [("EIN", [some (.str "1")])]⟩)],
     [("t.csv", ⟨none, [some (.str "1")], [("EIN", [some (.str "1")])]⟩)],
     none⟩ "t" "nccs" .star (some "EIN") none false).2.2.2.1
    (by decide) (by decide)

theorem map_fst_pair (g : String → List Cell) (cs : List String) :
    (cs.map (fun c => (c, g c))).map Prod.fst = cs := by
  induction cs with
  | nil => rfl
  | cons c cs ih => simp [ih]

theorem DF.selectCols_colNames (df : DF) (cs : List String) (sel : DF)
    (h : df.selectCols cs = some sel) : sel.colNames = cs := by
  unfold DF.selectCols at h
  by_cases hall : cs.all (fun c => (df.getCol c).isSome)
  · rw [if_pos hall] at h
    cases h
    exact map_fst_pair _ cs
  · rw [if_neg hall] at h
    exact absurd h (by simp)

theorem DF.renameUpper_colNames (df : DF) :
    df.renameUpper.colNames = df.colNames.map strToUpper := by
  simp [DF.renameUpper, DF.colNames, List.map_map, Function.comp]

theorem finishGetSql_result_list (st : SqlState) (fname : String)
    (cs : List String) (df : DF) (effs : List SqlEffect) (r : DF)
    (h : (finishGetSql st fname (.list cs) df effs).result = .ok r) :
    r.colNames = (cs.filter (fun c => c ≠ "EIN")).map strToUpper := by
  unfold finishGetSql at h
  dsimp only at h
  cases hsel : df.selectCols (cs.filter (fun c => c ≠ "EIN")) with
  | none =>
    rw [hsel] at h
    exact absurd
      (show (Except.error PyError.keyError : Except PyError DF) = Except.ok r from h)
      (by simp)
  | some sel =>
    rw [hsel] at h
    have h2 : Except.ok sel.renameUpper = Except.ok r := h
    cases h2
    rw [DF.renameUpper_colNames, DF.selectCols_colNames df _ sel hsel]

theorem get_sql_lower_cases (nc : List String) (st : SqlState)
    (fname dbase : String) (cols : ColsArg) (ic : Option String)
    (md : Option DF) (fsc : Bool) :
    (∃ e, (get_sql_lower nc st fname dbase cols ic md fsc).result = .error e) ∨
    (∃ st1 df effs, get_sql_lower nc st fname dbase cols ic md fsc
        = finishGetSql st1 fname cols df effs) := by
  unfold get_sql_lower
  dsimp only
  repeat' split
  all_goals first
    | exact Or.inl ⟨_, rfl⟩
    | exact Or.inr ⟨_, _, _, rfl⟩

theorem get_sql_lower_list_shape (nc : List String) (st : SqlState)
    (fname dbase : String) (cs : List String) (ic : Option String)
    (md : Option DF) (fsc : Bool) (r : DF)
    (h : (get_sql_lower nc st fname dbase (.list cs) ic md fsc).result = .ok r) :
    r.colNames = (cs.filter (fun c => c ≠ "EIN")).map strToUpper := by
  rcases get_sql_lower_cases nc st fname dbase (.list cs) ic md fsc with
    ⟨e, he⟩ | ⟨st1, df, effs, heq⟩
  · rw [he] at h
    simp at h
  · rw [heq] at h
    exact finishGetSql_result_list _ _ _ _ _ _ h

theorem finishGetSql_star_cached (st : SqlState) (fname : String) (df : DF)
    (effs : List SqlEffect) (r : DF)
    (h : (finishGetSql st fname .star df effs).result = .ok r) :
    List.lookup fname (finishGetSql st fname .star df effs).state.sql_cache
      = some r := by
  unfold finishGetSql
  have h2 : Except.ok df = Except.ok r := h
  cases h2
  simp [List.lookup]

theorem get_sql_lower_star_cached (nc : List String) (st : SqlState)
    (fname dbase : String) (ic : Option String) (md : Option DF) (fsc : Bool)
    (r : DF)
    (h : (get_sql_lower nc st fname dbase .star ic md fsc).result = .ok r) :
    List.lookup fname
      (get_sql_lower nc st fname dbase .star ic md fsc).state.sql_cache
      = some r := by
  rcases get_sql_lower_cases nc st fname dbase .star ic md fsc with
    ⟨e, he⟩ | ⟨st1, df, effs, heq⟩
  · rw [he] at h
    simp at h
  · rw [heq] at h ⊢
    exact finishGetSql_star_cached _ _ _ _ _ h

/-- C8 counterexample: a cached table with the lower-case column a,
requested as the column list with that single label, is returned by
the memory tier with its original label, not upper-cased as the claim
demands for every tier. -/
theorem get_sql_memory_shaping_cex :
    (get_sql []
        ⟨[("t", ⟨some "EIN", [some (.str "1")], [("a", [some (.str "v")])]⟩)],
         [], [], [], none⟩
        "t" "nccs" (.list ["a"]) (some "EIN") none false).result
      = .ok ⟨some "EIN", [some (.str "1")], [("a", [some (.str "v")])]⟩ ∧
    (DF.mk (some "EIN") [some (.str "1")] [("a", [some (.str "v")])]).colNames
      = ["a"] ∧
    ((["a"].filter (fun c => c ≠ "EIN")).map strToUpper = ["A"]) ∧
    (["a"] : List String) ≠ ["A"] := by
  decide

/-- C8 amended: with the star argument any tier returns the full
table (the memory tier returns the cached table; the lower tiers
return exactly the table they also store in the memory cache); with a
column list, results produced by tiers 2-4 carry exactly the requested
subset minus the EIN key with labels upper-cased, while a memory-tier
hit returns the cached subset with its original labels and no EIN
exclusion. -/
theorem get_sql_final_shaping :
    ∀ (nc : List String) (st : SqlState) (fname dbase : String)
      (ic : Option String) (md : Option DF) (fsc : Bool),
    (∀ cached, List.lookup fname st.sql_cache = some cached →
        (get_sql nc st fname dbase .star ic md fsc).result = .ok cached) ∧
    (∀ cached cs sub, List.lookup fname st.sql_cache = some cached →
        cached.selectCols cs = some sub →
        (get_sql nc st fname dbase (.list cs) ic md fsc).result = .ok sub ∧
        sub.colNames = cs) ∧
    (∀ r, cacheSatisfies st fname .star = false →
        (get_sql nc st fname dbase .star ic md fsc).result = .ok r →
        List.lookup fname
          (get_sql nc st fname dbase .star ic md fsc).state.sql_cache
          = some r) ∧
    (∀ cs r, cacheSatisfies st fname (.list cs) = false →
        (get_sql nc st fname dbase (.list cs) ic md fsc).result = .ok r →
        r.colNames = (cs.filter (fun c => c ≠ "EIN")).map strToUpper) := by
  intro nc st fname dbase ic md fsc
  refine ⟨?_, ?_, ?_, ?_⟩
  · intro cached hlk
    simp [get_sql, hlk]
  · intro cached cs sub hlk hsel
    exact ⟨by simp [get_sql, hlk, hsel],
           DF.selectCols_colNames cached cs sub hsel⟩
  · intro r hcs h
    rw [get_sql_eq_lower nc st fname dbase .star ic md fsc hcs] at h ⊢
    exact get_sql_lower_star_cached nc st fname dbase ic md fsc r h
  · intro cs r hcs h
    rw [get_sql_eq_lower nc st fname dbase (.list cs) ic md fsc hcs] at h
    exact get_sql_lower_list_shape nc st fname dbase cs ic md fsc r h

/-- Witness for the amended C8 at a concrete memory hit: the cached
subset comes back with its original lower-case label. -/
theorem get_sql_final_shaping_witness :
    List.lookup "t"
        [("t", DF.mk (some "EIN") [some (.str "1")] [("a", [some (.str "v")])])]
      = some (DF.mk (some "EIN") [some (.str "1")] [("a", [some (.str "v")])]) ∧
    (DF.mk (some "EIN") [some (.str "1")]
        [("a", [some (.str "v")])]).selectCols ["a"]
      = some (DF.mk (some "EIN") [some (.str "1")] [("a", [some (.str "v")])]) ∧
    ((get_sql []
        ⟨[("t", DF.mk (some "EIN") [some (.str "1")] [("a", [some (.str "v")])])],
         [], [], [], none⟩
        "t" "nccs" (.list ["a"]) (some "EIN") none false).result
      = .ok (DF.mk (some "EIN") [some (.str "1")] [("a", [some (.str "v")])]) ∧
     (DF.mk (some "EIN") [some (.str "1")]
        [("a", [some (.str "v")])]).colNames = ["a"]) :=
  ⟨by decide, by decide,
   (get_sql_final_shaping []
      ⟨[("t", DF.mk (some "EIN") [some (.str "1")] [("a", [some (.str "v")])])],
       [], [], [], none⟩
      "t" "nccs" (some "EIN") none false).2.1
     (DF.mk (some "EIN") [some (.str "1")] [("a", [some (.str "v")])]) ["a"]
     (DF.mk (some "EIN") [some (.str "1")] [("a", [some (.str "v")])])
     (by decide) (by decide)⟩

theorem mapExcept_ok_length {α β : Type} (f : α → Except PyError β)
    (l : List α) : ∀ out : List β, mapExcept f l = .ok out →
    out.length = l.length := by
  induction l with
  | nil =>
    intro out h
    have h2 : Except.ok ([] : List β) = Except.ok out := h
    cases h2
    rfl
  | cons x xs ih =>
    intro out h
    unfold mapExcept at h
    cases hf : f x with
    | error e =>
      rw [hf] at h
      exact absurd
        (show (Except.error e : Except PyError (List β)) = Except.ok out from h)
        (by simp)
    | ok y =>
      rw [hf] at h
      cases hm : mapExcept f xs with
      | error e =>
        rw [hm] at h
        exact absurd
          (show (Except.error e : Except PyError (List β)) = Except.ok out from h)
          (by simp)
      | ok ys =>
        rw [hm] at h
        have h2 : Except.ok (y :: ys) = Except.ok out := h
        cases h2
        simp [ih ys hm]

theorem parseField_ne_empty (s : String) :
    parseField s ≠ some (PyVal.str "") := by
  unfold parseField
  by_cases h : s = "" <;> simp [h]

theorem mapField_getD (ps : List String) : ∀ i : Nat,
    (ps.map parseField).getD i none ≠ some (PyVal.str "") := by
  induction ps with
  | nil => intro i; simp [List.getD]
  | cons p ps ih =>
    intro i
    cases i with
    | zero => simpa using parseField_ne_empty p
    | succ n => simpa using ih n

theorem parse_row_snd (delim : Char) (lines : List String) :
    ∀ r ∈ parseCsvNoHeader delim lines, r.2 ≠ some (PyVal.str "") := by
  intro r hr
  unfold parseCsvNoHeader at hr
  obtain ⟨l, hl, heq⟩ := List.mem_map.mp hr
  rw [← heq]
  unfold parseLine
  exact mapField_getD _ 1

/-- C6: building the notice-filing table from input with two rows
whose identifiers convert to the same integer EIN, or building the
organization-registry table from region data whose concatenated EIN
column repeats a value, raises the fatal uniqueness assertion instead
of returning a table. -/
theorem duplicate_ein_fatal :
    (∀ (delim : Char) (lines : List String) (eins : List Int) (i j : Nat)
        (hi : i < eins.length) (hj : j < eins.length),
      mapExcept (fun r => cellToInt64 r.1) (parseCsvNoHeader delim lines)
        = .ok eins →
      i ≠ j → eins.get ⟨i, hi⟩ = eins.get ⟨j, hj⟩ →
      download_epostcard delim lines
        = .error (.assertionError "Expected unique EINs in epostcard data.")) ∧
    (∀ (bmf_data : List (String × DF)) (cells : List Cell) (i j : Nat)
        (hi : i < cells.length) (hj : j < cells.length),
      (concatKeyed bmf_data).getCol "EIN" = some cells →
      i ≠ j → cells.get ⟨i, hi⟩ = cells.get ⟨j, hj⟩ →
      download_bmf bmf_data
        = .error (.assertionError "Expected unique EINs in BMF data.")) := by
  constructor
  · intro delim lines eins i j hi hj hmap hij hget
    have hnd : ¬ eins.Nodup := by
      intro hnd
      have h2 := List.nodup_iff_injective_get.mp hnd hget
      exact hij (congrArg Fin.val h2)
    have hlen : eins.length = (parseCsvNoHeader delim lines).length :=
      mapExcept_ok_length _ _ eins hmap
    have hkeep : ((eins.zip ((parseCsvNoHeader delim lines).map Prod.snd)).filter
        (fun p => p.2 ≠ some (PyVal.str "")))
        = eins.zip ((parseCsvNoHeader delim lines).map Prod.snd) := by
      rw [List.filter_eq_self]
      intro a ha
      obtain ⟨rr, hrr, heq⟩ := List.mem_map.mp (List.of_mem_zip ha).2
      simpa [heq] using parse_row_snd delim lines rr hrr
    have hfst : ((eins.zip ((parseCsvNoHeader delim lines).map Prod.snd)).map
        Prod.fst) = eins := by
      apply List.map_fst_zip
      rw [List.length_map, ← hlen]
    simp only [download_epostcard, hmap]
    rw [hkeep, hfst, if_neg hnd]
  · intro bmf_data cells i j hi hj hcol hij hget
    have hnd : ¬ cells.Nodup := by
      intro hnd
      have h2 := List.nodup_iff_injective_get.mp hnd hget
      exact hij (congrArg Fin.val h2)
    have hsi : (concatKeyed bmf_data).set_index "EIN"
        = some ⟨some "EIN", cells,
            (concatKeyed bmf_data).columns.filter (fun p => p.1 ≠ "EIN")⟩ := by
      unfold DF.set_index
      rw [hcol]
    simp only [download_bmf, hsi]
    rw [if_neg hnd]

/-- Witness for C6: a two-row epostcard input repeating EIN 1 raises
the epostcard assertion, and two one-row regions sharing EIN 1 raise
the BMF assertion. -/
theorem duplicate_ein_fatal_witness :
    mapExcept (fun r => cellToInt64 r.1) (parseCsvNoHeader '|' ["1|x\n", "1|y\n"])
      = .ok [1, 1] ∧
    download_epostcard '|' ["1|x\n", "1|y\n"]
      = .error (.assertionError "Expected unique EINs in epostcard data.") ∧
    (concatKeyed
        [("region1", ⟨none, [none], [("EIN", [some (.str "1")])]⟩),
         ("region2", ⟨none, [none], [("EIN", [some (.str "1")])]⟩)]).getCol "EIN"
      = some [some (.str "1"), some (.str "1")] ∧
    download_bmf
        [("region1", ⟨none, [none], [("EIN", [some (.str "1")])]⟩),
         ("region2", ⟨none, [none], [("EIN", [some (.str "1")])]⟩)]
      = .error (.assertionError "Expected unique EINs in BMF data.") :=
  ⟨by decide,
   duplicate_ein_fatal.1 '|' ["1|x\n", "1|y\n"] [1, 1] 0 1 (by decide) (by decide)
     (by decide) (by decide) (by decide),
   by decide,
   duplicate_ein_fatal.2
     [("region1", ⟨none, [none], [("EIN", [some (.str "1")])]⟩),
      ("region2", ⟨none, [none], [("EIN", [some (.str "1")])]⟩)]
     [some (.str "1"), some (.str "1")] 0 1 (by decide) (by decide) (by decide)
     (by decide) (by decide)⟩

end NCCS
